import Mathlib

/-!
Shallow embedding of the three AWS Lambda handlers of the s3b telegram bot
relay (send_message_from_telegram, send_message_to_telegram,
send_notification_to_telegram) together with theorems settling the frozen
claims about media classification, outbound dispatch batching, presigned
URL exchange, identity resolution, skip-branch purity, filename derivation,
input validation, and SQL statement parameterization.

Modelling conventions: machine-side collaborators (object storage, the
presigned URL service, the relational store) are passed in as explicit
function or state parameters; a raised Python exception is an
`Except.error`; the observable behaviour of a handler is the list of
collaborator effects it issues, in program order.  JSON scalar values that
the code copies through untouched (for example contact phone numbers or
location coordinates) are represented by their literal text.
-/

namespace TelegramBot

/-- Telegram `contact` payload object; fields the code reads. -/
structure TContact where
  first_name : Option String
  last_name : Option String
  phone_number : Option String
deriving DecidableEq

/-- Telegram `location` payload object; coordinate scalars are kept as their
literal JSON text since the code only copies them through. -/
structure TLocation where
  latitude : Option String
  longitude : Option String
deriving DecidableEq

/-- Telegram `document` payload object; the code indexes these keys
unconditionally, so they are required fields. -/
structure TDocument where
  file_name : String
  file_size : Nat
  mime_type : String
  file_id : String
deriving DecidableEq

/-- Telegram `animation` payload object. -/
structure TAnimation where
  file_unique_id : String
  file_size : Nat
  mime_type : String
  file_id : String
  width : Nat
  height : Nat
deriving DecidableEq

/-- Telegram `video` payload object. -/
structure TVideo where
  file_name : String
  file_size : Nat
  mime_type : String
  file_id : String
  width : Nat
  height : Nat
deriving DecidableEq

/-- Telegram `voice` payload object. -/
structure TVoice where
  file_unique_id : String
  file_size : Nat
  mime_type : String
  file_id : String
deriving DecidableEq

/-- Telegram `audio` payload object. -/
structure TAudio where
  file_name : String
  file_size : Nat
  mime_type : String
  file_id : String
deriving DecidableEq

/-- Telegram `sticker` payload object. -/
structure TSticker where
  is_animated : Bool
  file_unique_id : String
  file_size : Nat
  file_id : String
  width : Nat
  height : Nat
deriving DecidableEq

/-- One entry of the Telegram `photo` size array. -/
structure TPhotoSize where
  file_unique_id : String
  file_size : Nat
  file_id : String
  width : Nat
  height : Nat
deriving DecidableEq

/-- Sender metadata (the JSON key is `from`, a Lean keyword, hence `sender`). -/
structure TFrom where
  first_name : Option String
  last_name : Option String
  username : Option String
deriving DecidableEq

/-- An inbound Telegram `message` object with exactly the keys the handler
reads; `poll` records whether the `poll` key is present. -/
structure TMessage where
  text : Option String := none
  caption : Option String := none
  contact : Option TContact := none
  location : Option TLocation := none
  document : Option TDocument := none
  animation : Option TAnimation := none
  video : Option TVideo := none
  voice : Option TVoice := none
  audio : Option TAudio := none
  photo : Option (List TPhotoSize) := none
  sticker : Option TSticker := none
  poll : Bool := false
  sender : TFrom := ⟨none, none, none⟩
deriving DecidableEq

/-- Width and height of a media item. -/
structure Dimensions where
  width : Nat
  height : Nat
deriving DecidableEq

/-- One classified content item, mirroring the dictionaries built by
`form_message_format`; the nested `details` dictionary of contact and
location items is flattened into the `detail*` fields. -/
structure ContentItem where
  category : String
  fileName : Option String := none
  fileExtension : Option String := none
  fileSize : Option Nat := none
  mimeType : Option String := none
  url : Option String := none
  dimensions : Option Dimensions := none
  detailFirstName : Option String := none
  detailLastName : Option String := none
  detailPhoneNumber : Option String := none
  detailLatitude : Option String := none
  detailLongitude : Option String := none
deriving DecidableEq

/-- Object storage key `chat_rooms/{chat_room_id}/{file_name}` used by
`upload_file_to_s3_bucket`. -/
def s3Key (chat_room_id : String) (file_name : String) : String :=
  "chat_rooms/" ++ chat_room_id ++ "/" ++ file_name

/-- Python string formatting of a possibly-absent value (`None` prints as
the literal text None). -/
def pythonStr (v : Option String) : String :=
  match v with
  | some s => s
  | none => "None"

/-- The extension derivation `".{0}".format(name.rsplit(".", 1)[1]).lower()`
used for documents, videos and audios; a name without a dot makes the index
`[1]` raise, modelled as an error. -/
def rsplitExt (file_name : String) : Except String String :=
  match (file_name.splitOn ".").reverse with
  | [] => .error "IndexError: list index out of range"
  | [_] => .error "IndexError: list index out of range"
  | ext :: _ => .ok (("." ++ ext).toLower)

/-- Content classification part of `form_message_format`
(send_message_from_telegram lambda_function.py lines 919 to 1073): the elif
chain over the payload fields.  `s3Url` is the Object Storage collaborator
returning the canonical URL for an uploaded key, exactly as
`upload_file_to_s3_bucket` returns it. -/
def classify_content (s3Url : String → String) (chat_room_id : Option String)
    (message : TMessage) : Except String (Option (List ContentItem)) :=
  let upload := fun (file_name : String) => s3Url (s3Key (pythonStr chat_room_id) file_name)
  match message.contact with
  | some contact =>
      .ok (some [{ category := "contact",
                   detailFirstName := contact.first_name,
                   detailLastName := contact.last_name,
                   detailPhoneNumber := contact.phone_number }])
  | none =>
  match message.location with
  | some location =>
      .ok (some [{ category := "location",
                   detailLatitude := location.latitude,
                   detailLongitude := location.longitude }])
  | none =>
  match message.document, message.animation with
  | some document, none =>
      match rsplitExt document.file_name with
      | .error e => .error e
      | .ok ext =>
          .ok (some [{ category := "document",
                       fileName := some document.file_name,
                       fileExtension := some ext,
                       fileSize := some document.file_size,
                       mimeType := some document.mime_type,
                       url := some (upload document.file_name) }])
  | some _, some animation =>
      .ok (some [{ category := "gif",
                   fileName := some (animation.file_unique_id ++ ".mp4"),
                   fileExtension := some ".mp4",
                   fileSize := some animation.file_size,
                   mimeType := some animation.mime_type,
                   url := some (upload (animation.file_unique_id ++ ".mp4")),
                   dimensions := some ⟨animation.width, animation.height⟩ }])
  | none, _ =>
  match message.video with
  | some video =>
      match rsplitExt video.file_name with
      | .error e => .error e
      | .ok ext =>
          .ok (some [{ category := "video",
                       fileName := some video.file_name,
                       fileExtension := some ext,
                       fileSize := some video.file_size,
                       mimeType := some video.mime_type,
                       url := some (upload video.file_name),
                       dimensions := some ⟨video.width, video.height⟩ }])
  | none =>
  match message.voice with
  | some voice =>
      .ok (some [{ category := "audio",
                   fileName := some (voice.file_unique_id ++ ".ogg"),
                   fileExtension := some ".ogg",
                   fileSize := some voice.file_size,
                   mimeType := some voice.mime_type,
                   url := some (upload (voice.file_unique_id ++ ".ogg")) }])
  | none =>
  match message.audio with
  | some audio =>
      match rsplitExt audio.file_name with
      | .error e => .error e
      | .ok ext =>
          .ok (some [{ category := "audio",
                       fileName := some audio.file_name,
                       fileExtension := some ext,
                       fileSize := some audio.file_size,
                       mimeType := some audio.mime_type,
                       url := some (upload audio.file_name) }])
  | none =>
  match message.sticker with
  | some sticker =>
      if sticker.is_animated = false then
        .ok (some [{ category := "sticker",
                     fileName := some (sticker.file_unique_id ++ ".webp"),
                     fileExtension := some ".webp",
                     fileSize := some sticker.file_size,
                     mimeType := some "image/webp",
                     url := some (upload (sticker.file_unique_id ++ ".webp")),
                     dimensions := some ⟨sticker.width, sticker.height⟩ }])
      else
        .ok none
  | none =>
  match message.photo with
  | some photo =>
      match photo.getLast? with
      | none => .error "IndexError: list index out of range"
      | some last =>
          .ok (some [{ category := "image",
                       fileName := some (last.file_unique_id ++ ".jpeg"),
                       fileExtension := some ".jpeg",
                       fileSize := some last.file_size,
                       mimeType := some "image/jpeg",
                       url := some (upload (last.file_unique_id ++ ".jpeg")),
                       dimensions := some ⟨last.width, last.height⟩ }])
  | none => .ok none

/-- Message text selection of `form_message_format` (lines 911 to 917):
the text field when present, otherwise the caption, otherwise null. -/
def messageTextOf (message : TMessage) : Option String :=
  match message.text with
  | some text => some text
  | none => message.caption

/-- The whole of `form_message_format`: the pair of the selected message
text and the classified content list. -/
def form_message_format (s3Url : String → String) (chat_room_id : Option String)
    (message : TMessage) : Except String (Option String × Option (List ContentItem)) :=
  (classify_content s3Url chat_room_id message).map (fun c => (messageTextOf message, c))

/-- Categories of a classification result: `none` for a raised error,
otherwise the (possibly null) list of item categories. -/
def contentCats (r : Except String (Option (List ContentItem))) :
    Option (Option (List String)) :=
  match r with
  | .error _ => none
  | .ok c => some (c.map (List.map (fun item => item.category)))

/-- File names of a classification result: `none` for a raised error,
otherwise the file names of the produced items (null content yields an
empty list). -/
def contentFileNames (r : Except String (Option (List ContentItem))) :
    Option (List (Option String)) :=
  match r with
  | .error _ => none
  | .ok none => some []
  | .ok (some items) => some (items.map (fun item => item.fileName))

/-- Pixel count of a photo size variant, used to compare resolutions. -/
def photoRes (p : TPhotoSize) : Nat :=
  p.width * p.height

/-- Collaborator effects issued by the inbound handler, in program order. -/
inductive Effect
  | sendMessageText (text : String)
  | upload (key : String)
  | createIdentifiedUser (username : Option String)
  | createChatRoom (client_id : String)
  | activateClosedChatRoom (chat_room_id : Option String) (client_id : Option String)
  | createChatRoomMessage (text : Option String) (content : Option (List ContentItem))
  | updateMessageData (message_id : String)
deriving DecidableEq

/-- Row returned by the inbound `get_aggregated_data` SQL query; the left
joins make every column nullable. -/
structure AggRow where
  chat_room_id : Option String
  channel_id : Option String
  chat_room_status : Option String
  client_id : Option String
deriving DecidableEq

/-- Collaborator responses the inbound handler consumes: the aggregated
chat-room row, the bot token, the identified-user lookup result, the ids
minted by the GraphQL core, and the object storage URL function. -/
structure InEnv where
  aggregated : Option AggRow
  telegram_bot_token : String
  identified_user_lookup : Option String
  created_user_id : String
  created_message_id : String
  s3Url : String → String

/-- Canned greeting sent for the /start command. -/
def greetingText : String := "🤖💬\nЗдравствуйте! Чем мы можем Вам помочь?"

/-- Canned reply for poll payloads. -/
def pollUnavailableText : String := "🤖💬\nОбработка опросов недоступна."

/-- Canned reply for animated stickers. -/
def animatedStickerUnavailableText : String := "🤖💬\nОбработка анимированных стикеров недоступна."

/-- Canned reply asking the client to describe the problem in text first. -/
def describeProblemFirstText : String := "🤖💬\nОпишите пожалуйста сперва вашу проблему в текстовом формате."

/-- Whether the sticker payload is present and flagged animated. -/
def stickerIsAnimated (message : TMessage) : Bool :=
  match message.sticker with
  | some sticker => sticker.is_animated
  | none => false

/-- The `any(... is not None ...)` test over the `message_contents` list
built at lines 1145 and 1167 of the inbound handler. -/
def anyMediaSet (message : TMessage) : Bool :=
  message.contact.isSome || message.location.isSome || message.document.isSome ||
  message.animation.isSome || message.video.isSome || message.voice.isSome ||
  message.audio.isSome || message.photo.isSome || message.sticker.isSome

/-- Upload effects performed while classifying: one upload per file-bearing
content item, under the object storage key built from its file name. -/
def uploadEffects (chat_room_id : Option String) (content : Option (List ContentItem)) :
    List Effect :=
  match content with
  | none => []
  | some items =>
      items.filterMap (fun item =>
        item.fileName.map (fun fn => Effect.upload (s3Key (pythonStr chat_room_id) fn)))

/-- The inbound `lambda_handler` of send_message_from_telegram from the
point where the message object exists (lines 1147 to 1260): the skip
branches, then classification, then the chat-room-status branches ending in
message persistence and the message-data update. -/
def inbound_lambda_handler (env : InEnv) (message : TMessage) :
    Except String (List Effect) :=
  let chat_room_id := env.aggregated.bind AggRow.chat_room_id
  let chat_room_status := env.aggregated.bind AggRow.chat_room_status
  if message.text = some "/start" then
    .ok [Effect.sendMessageText greetingText]
  else if message.poll then
    .ok [Effect.sendMessageText pollUnavailableText]
  else if message.sticker.isSome then
    (if stickerIsAnimated message then
      .ok [Effect.sendMessageText animatedStickerUnavailableText]
     else
      .ok [])
  else if chat_room_id.isNone && anyMediaSet message then
    .ok [Effect.sendMessageText describeProblemFirstText]
  else
    match form_message_format env.s3Url chat_room_id message with
    | .error e => .error e
    | .ok (message_text, message_content) =>
        let uploads := uploadEffects chat_room_id message_content
        let tail := [Effect.createChatRoomMessage message_text message_content,
                     Effect.updateMessageData env.created_message_id]
        match chat_room_status with
        | none =>
            let client_id :=
              match env.identified_user_lookup with
              | some cid => cid
              | none => env.created_user_id
            let createUser :=
              match env.identified_user_lookup with
              | some _ => []
              | none => [Effect.createIdentifiedUser message.sender.username]
            .ok (uploads ++ createUser ++ [Effect.createChatRoom client_id] ++ tail)
        | some "completed" =>
            .ok (uploads ++
                 [Effect.activateClosedChatRoom chat_room_id (env.aggregated.bind AggRow.client_id)] ++
                 tail)
        | some _ =>
            .ok (uploads ++ tail)

/-- Effect predicate: a canned text reply through the channel. -/
def isSendMessageText : Effect → Bool
  | Effect.sendMessageText _ => true
  | _ => false

/-- Effect predicate used for the caption-fallback claim: every persisted
message carries the text selected by `messageTextOf`. -/
def persistedTextMatches (message : TMessage) : Effect → Bool
  | Effect.createChatRoomMessage t _ => t = messageTextOf message
  | _ => true

/-- Lifts `persistedTextMatches` over a handler result; a raised error
persists nothing. -/
def resultTextsOk (r : Except String (List Effect)) (message : TMessage) : Bool :=
  match r with
  | .error _ => true
  | .ok effects => effects.all (persistedTextMatches message)

/-- One decoded entry of the outbound `messageContent` JSON list; the
dispatcher reads only the `category` and `url` keys. -/
structure OutFile where
  category : String
  url : String
deriving DecidableEq

/-- One entry of the `sendMediaGroup` collection (the JSON key for
`media_type` is `type`); the caption key is present only when set. -/
structure MediaItem where
  media_type : String
  media : String
  caption : Option String := none
deriving DecidableEq

/-- Telegram Bot API calls the outbound relay can issue.  The URL argument
of the presigned senders is the raw value handed over by the handler, which
may be the absent result of the presigned URL collaborator. -/
inductive TgCall
  | sendMessage (text : String)
  | sendAnimation (animation_url : String)
  | sendDocument (document_url : Option String) (caption : Option String)
  | sendPhoto (photo_url : Option String) (caption : Option String)
  | sendVideo (video_url : Option String) (caption : Option String)
  | sendAudio (audio_url : Option String) (caption : Option String)
  | sendMediaGroup (media : List MediaItem)
deriving DecidableEq

/-- Whether a call carries a caption value. -/
def callHasCaption : TgCall → Bool
  | TgCall.sendDocument _ (some _) => true
  | TgCall.sendPhoto _ (some _) => true
  | TgCall.sendVideo _ (some _) => true
  | TgCall.sendAudio _ (some _) => true
  | TgCall.sendMediaGroup media => media.any (fun m => m.caption.isSome)
  | _ => false

/-- Single-file dispatch of the outbound handler (lambda_function.py of
send_message_to_telegram, lines 795 to 846): one category-specific call for
gif, document, image, video and audio; any other category falls through to
`pass`.  Note that only the gif branch skips `get_the_presigned_url`. -/
def singleFileDispatch (presign : String → Option String) (message_text : Option String)
    (file : OutFile) : List TgCall :=
  if file.category = "gif" then
    [TgCall.sendAnimation file.url]
  else if file.category = "document" then
    [TgCall.sendDocument (presign file.url) message_text]
  else if file.category = "image" then
    [TgCall.sendPhoto (presign file.url) message_text]
  else if file.category = "video" then
    [TgCall.sendVideo (presign file.url) message_text]
  else if file.category = "audio" then
    [TgCall.sendAudio (presign file.url) message_text]
  else
    []

/-- Collection built for `sendMediaGroup` (lines 848 to 864): every file is
exchanged for a presigned URL; absent responses are skipped; the caption is
attached only when the message text exists. -/
def mediaCollection (presign : String → Option String) (message_text : Option String)
    (files : List OutFile) : List MediaItem :=
  files.filterMap (fun file =>
    (presign file.url).map (fun p =>
      { media_type := "document", media := p, caption := message_text }))

/-- Telegram dispatch section of the outbound handler (lines 779 to 873):
text-only send when no content exists, then the count-directed content
dispatch. -/
def telegramDispatch (presign : String → Option String) (message_text : Option String)
    (message_content : Option (List OutFile)) : List TgCall :=
  let textCalls :=
    match message_text, message_content with
    | some t, none => [TgCall.sendMessage t]
    | _, _ => []
  let contentCalls :=
    match message_content with
    | none => []
    | some [file] => singleFileDispatch presign message_text file
    | some files =>
        if 1 < files.length ∧ files.length ≤ 10 then
          [TgCall.sendMediaGroup (mediaCollection presign message_text files)]
        else
          []
  textCalls ++ contentCalls

/-- Quoted-message object of the outbound mutation input; every field may
be absent or null, collapsed into one Option as `.get`-style access does. -/
structure QuotedMessageInput where
  messageId : Option String := none
  messageAuthorId : Option String := none
  messageChannelId : Option String := none
  messageText : Option String := none
  messageContent : Option String := none
deriving DecidableEq

/-- The `body["arguments"]["input"]` object of the outbound relay request.
The outer Option of `quotedMessage` records whether the key is present and
the inner one whether its value is non-null (a present null value makes the
code subscript None and raise).  `messageContent` is carried as the decoded
JSON list the handler later loads. -/
structure InputBody where
  chatRoomId : Option String := none
  messageAuthorId : Option String := none
  messageChannelId : Option String := none
  messageText : Option String := none
  messageContent : Option (List OutFile) := none
  quotedMessage : Option (Option QuotedMessageInput) := none
  localMessageId : Option String := none
deriving DecidableEq

/-- Hexadecimal digit test for the UUID model. -/
def isHexChar (c : Char) : Bool :=
  ('0' ≤ c && c ≤ '9') || ('a' ≤ c && c ≤ 'f') || ('A' ≤ c && c ≤ 'F')

/-- Opening or closing curly brace character. -/
def isCurly (c : Char) : Bool :=
  c == '\x7b' || c == '\x7d'

/-- Removes every occurrence of the marker `urn:` from a character list,
scanning left to right as Python `str.replace` does. -/
def removeUrnToken : List Char → List Char
  | 'u' :: 'r' :: 'n' :: ':' :: rest => removeUrnToken rest
  | c :: rest => c :: removeUrnToken rest
  | [] => []

/-- Removes every occurrence of the marker `uuid:` from a character list,
scanning left to right as Python `str.replace` does. -/
def removeUuidToken : List Char → List Char
  | 'u' :: 'u' :: 'i' :: 'd' :: ':' :: rest => removeUuidToken rest
  | c :: rest => c :: removeUuidToken rest
  | [] => []

/-- Model of Python `uuid.UUID(s)` acceptance: drop `urn:` and `uuid:`
markers, strip surrounding braces, drop hyphens, then require exactly 32
hexadecimal digits. -/
def pythonUuidValid (s : String) : Bool :=
  let t1 := removeUuidToken (removeUrnToken s.toList)
  let t2 := ((t1.dropWhile isCurly).reverse.dropWhile isCurly).reverse
  let t3 := t2.filter (fun c => c != '-')
  t3.length == 32 && t3.all isHexChar

/-- Validation of one required UUID argument of `check_input_arguments`:
absent values and non-UUID values raise. -/
def validateRequired (value : Option String) (missingMsg badMsg : String) :
    Except String String :=
  match value with
  | none => .error missingMsg
  | some s => if pythonUuidValid s then .ok s else .error badMsg

/-- Validation of one optional UUID argument of `check_input_arguments`:
only present non-UUID values raise. -/
def validateOptionalUuid (value : Option String) (badMsg : String) :
    Except String (Option String) :=
  match value with
  | none => .ok none
  | some s => if pythonUuidValid s then .ok (some s) else .error badMsg

/-- The validated argument record that `check_input_arguments` puts on the
result queue. -/
structure CheckedInput where
  chat_room_id : String
  message_author_id : String
  message_channel_id : String
  message_text : Option String
  message_content : Option (List OutFile)
  quoted_message_id : Option String
  quoted_message_author_id : Option String
  quoted_message_channel_id : Option String
  quoted_message_text : Option String
  quoted_message_content : Option String
  local_message_id : Option String
deriving DecidableEq

/-- The `check_input_arguments` validator of send_message_to_telegram
(lines 78 to 173).  A validation failure raised inside the worker thread
leaves the queue without the input-arguments entry, which makes the handler
raise before reaching any store access, so the failure is modelled as the
error result of the whole validation step. -/
def check_input_arguments (input : InputBody) : Except String CheckedInput :=
  match validateRequired input.chatRoomId
      "The chatRoomId argument cannot be None/Null/Undefined."
      "The chatRoomId argument format is not UUID." with
  | .error e => .error e
  | .ok chat_room_id =>
  match validateRequired input.messageAuthorId
      "The messageAuthorId argument cannot be None/Null/Undefined."
      "The messageAuthorId argument format is not UUID." with
  | .error e => .error e
  | .ok message_author_id =>
  match validateRequired input.messageChannelId
      "The messageChannelId argument cannot be None/Null/Undefined."
      "The messageChannelId argument format is not UUID." with
  | .error e => .error e
  | .ok message_channel_id =>
  match input.quotedMessage with
  | some none => .error "TypeError: NoneType object is not subscriptable"
  | quoted =>
  let q := quoted.join
  match validateOptionalUuid (q.bind QuotedMessageInput.messageId)
      "The quotedMessageId argument format is not UUID." with
  | .error e => .error e
  | .ok quoted_message_id =>
  match validateOptionalUuid (q.bind QuotedMessageInput.messageAuthorId)
      "The quotedMessageAuthorId argument format is not UUID." with
  | .error e => .error e
  | .ok quoted_message_author_id =>
  match validateOptionalUuid (q.bind QuotedMessageInput.messageChannelId)
      "The quotedMessageChannelId argument format is not UUID." with
  | .error e => .error e
  | .ok quoted_message_channel_id =>
      .ok { chat_room_id := chat_room_id,
            message_author_id := message_author_id,
            message_channel_id := message_channel_id,
            message_text := input.messageText,
            message_content := input.messageContent,
            quoted_message_id := quoted_message_id,
            quoted_message_author_id := quoted_message_author_id,
            quoted_message_channel_id := quoted_message_channel_id,
            quoted_message_text := q.bind QuotedMessageInput.messageText,
            quoted_message_content := q.bind QuotedMessageInput.messageContent,
            local_message_id := input.localMessageId }

/-- Collaborator effects of the outbound relay: the GraphQL persistence
mutation followed by the Telegram calls, in program order. -/
inductive OutEffect
  | createChatRoomMessage (chat_room_id : String) (text : Option String)
      (content : Option (List OutFile))
  | telegram (call : TgCall)
deriving DecidableEq

/-- Collaborator responses the outbound handler consumes: the presigned
URL service and the aggregated `(telegram_chat_id, telegram_bot_token)`
row (absent when the chat room is unknown, which raises). -/
structure OutEnv where
  presign : String → Option String
  aggregated : Option (String × String)

/-- The outbound `lambda_handler` of send_message_to_telegram (lines 720 to
879): validate, read the aggregated row, persist the message through the
core, then dispatch to Telegram. -/
def outbound_lambda_handler (env : OutEnv) (input : InputBody) :
    Except String (List OutEffect) :=
  match check_input_arguments input with
  | .error e => .error e
  | .ok ia =>
      match env.aggregated with
      | none => .error "TypeError: NoneType object is not subscriptable"
      | some _ =>
          .ok (OutEffect.createChatRoomMessage ia.chat_room_id ia.message_text ia.message_content ::
               (telegramDispatch env.presign ia.message_text ia.message_content).map OutEffect.telegram)

/-- Whether an outbound effect is the store mutation. -/
def isStoreMutation : OutEffect → Bool
  | OutEffect.createChatRoomMessage _ _ _ => true
  | _ => false

/-- One row of the `identified_users` table. -/
structure IdentifiedUserRow where
  identified_user_id : Nat
  identified_user_first_name : Option String
  identified_user_last_name : Option String
  metadata : Option String
  telegram_username : Option String
deriving DecidableEq

/-- One row of the `users` table with its three mutually exclusive identity
references. -/
structure UserRow where
  user_id : Nat
  identified_user_id : Option Nat
  unidentified_user_id : Option Nat
  internal_user_id : Option Nat
deriving DecidableEq

/-- The relational store state the identity resolver touches; fresh ids are
minted from the counters. -/
structure PGDatabase where
  identified_users : List IdentifiedUserRow
  users : List UserRow
  next_identified_user_id : Nat
  next_user_id : Nat
deriving DecidableEq

/-- The `get_identified_user_data` lookup (send_message_from_telegram lines
358 to 402): the user id of a client user joined to an identified-user row
with the given telegram username; SQL equality never matches a null
username. -/
def get_identified_user_data (db : PGDatabase) (telegram_username : Option String) :
    Option String :=
  match telegram_username with
  | none => none
  | some uname =>
      (db.users.find? (fun u =>
        u.internal_user_id.isNone && u.unidentified_user_id.isNone &&
        (match u.identified_user_id with
         | some iid =>
             db.identified_users.any (fun r =>
               r.identified_user_id == iid && r.telegram_username == some uname)
         | none => false))).map (fun u => toString u.user_id)

/-- The `create_identified_user` insert pair (lines 405 to 459): the
identified-user insert runs `on conflict do nothing returning`, so a
username conflict yields no returned row and the subsequent
`cursor.fetchone()["identified_user_id"]` subscripts None and raises; on
the fresh path both rows are inserted and the new user id is returned. -/
def create_identified_user (db : PGDatabase)
    (identified_user_first_name identified_user_last_name metadata telegram_username : Option String) :
    Except String (String × PGDatabase) :=
  let conflict :=
    match telegram_username with
    | none => false
    | some uname => db.identified_users.any (fun r => r.telegram_username == some uname)
  if conflict then
    .error "TypeError: NoneType object is not subscriptable"
  else
    let identified_user_id := db.next_identified_user_id
    let user_id := db.next_user_id
    .ok (toString user_id,
      { identified_users := db.identified_users ++
          [⟨identified_user_id, identified_user_first_name, identified_user_last_name,
            metadata, telegram_username⟩],
        users := db.users ++ [⟨user_id, some identified_user_id, none, none⟩],
        next_identified_user_id := identified_user_id + 1,
        next_user_id := user_id + 1 })

/-- Single quote character, written via an escape. -/
def sqlQuoteChar : String := "\x27"

/-- The SQL statement text built by the send_notification_to_telegram
handler (lines 60 to 73): the request-supplied chat room id is interpolated
directly into the statement with `str.format`. -/
def notification_sql_statement (chat_room_id : String) : String :=
  "select telegram_chat_rooms.telegram_chat_id, " ++
  "channels.channel_technical_id as telegram_bot_token " ++
  "from chat_rooms " ++
  "left join telegram_chat_rooms on chat_rooms.chat_room_id = telegram_chat_rooms.chat_room_id " ++
  "left join channels on chat_rooms.channel_id = channels.channel_id " ++
  "where chat_rooms.chat_room_id = " ++ sqlQuoteChar ++ chat_room_id ++ sqlQuoteChar ++
  " limit 1;"

/-- The parameterized statement text of the inbound `get_aggregated_data`
query (send_message_from_telegram lines 204 to 227): a constant with a
named placeholder, independent of the request. -/
def inbound_get_aggregated_data_statement : String :=
  "select chat_rooms.chat_room_id, chat_rooms.channel_id, " ++
  "chat_rooms.chat_room_status, users.user_id as client_id " ++
  "from telegram_chat_rooms " ++
  "left join chat_rooms on telegram_chat_rooms.chat_room_id = chat_rooms.chat_room_id " ++
  "left join chat_rooms_users_relationship on chat_rooms.chat_room_id = chat_rooms_users_relationship.chat_room_id " ++
  "left join users on chat_rooms_users_relationship.user_id = users.user_id " ++
  "where telegram_chat_rooms.telegram_chat_id = %(telegram_chat_id)s " ++
  "and (users.internal_user_id is null and users.identified_user_id is not null " ++
  "or users.internal_user_id is null and users.unidentified_user_id is not null) " ++
  "limit 1;"

/-- Whether an `Except` result models a raised exception. -/
def exceptRaises {α : Type} (r : Except String α) : Bool :=
  match r with
  | .error _ => true
  | .ok _ => false

/-- A skip-branch outcome: the handler returns normally having issued at
most one canned channel reply and no other effect at all. -/
def skipPure (r : Except String (List Effect)) : Bool :=
  match r with
  | .error _ => false
  | .ok effects => effects.all isSendMessageText && decide (effects.length ≤ 1)

/-- Demonstration object storage collaborator. -/
def demoS3 : String → String := fun key => "https://files.example.com/" ++ key

/-- Demonstration presigned URL collaborator; it never returns the
permanent URL unchanged. -/
def demoPresign : String → Option String :=
  fun url => some ("https://signed.example.com/" ++ url)

/-- Inbound environment for a conversation with no existing chat room. -/
def demoInEnv : InEnv :=
  { aggregated := none, telegram_bot_token := "bot-token",
    identified_user_lookup := none, created_user_id := "new-user",
    created_message_id := "msg-1", s3Url := demoS3 }

/-- Inbound environment for a conversation with an accepted chat room. -/
def demoRoomEnv : InEnv :=
  { aggregated := some ⟨some "room-1", some "chan-1", some "accepted", some "client-1"⟩,
    telegram_bot_token := "bot-token", identified_user_lookup := none,
    created_user_id := "new-user", created_message_id := "msg-1", s3Url := demoS3 }

/-- Payload whose only recognized media field is `animation`. -/
def animationOnlyMessage : TMessage :=
  { animation := some ⟨"ANIM1", 512, "video/mp4", "fid-anim", 320, 240⟩ }

/-- Payload carrying a non-animated sticker and nothing else. -/
def demoStickerMessage : TMessage :=
  { sticker := some ⟨false, "STK1", 64, "fid-stk", 512, 512⟩ }

/-- Payload carrying the /start command. -/
def demoStartMessage : TMessage := { text := some "/start" }

/-- Payload with a caption and a contact but no text. -/
def demoCaptionMessage : TMessage :=
  { caption := some "cap", contact := some ⟨some "Ann", none, some "77001112233"⟩ }

/-- Content produced for the caption-and-contact payload. -/
def demoCaptionContent : Option (List ContentItem) :=
  some [{ category := "contact", detailFirstName := some "Ann",
          detailPhoneNumber := some "77001112233" }]

/-- Payload with both `document` and `animation` set. -/
def demoDocAnimMessage : TMessage :=
  { document := some ⟨"clip.mp4", 9, "video/mp4", "fid-doc"⟩,
    animation := some ⟨"ANIM1", 512, "video/mp4", "fid-anim", 320, 240⟩ }

/-- Lower-resolution photo size variant. -/
def demoPhotoSmall : TPhotoSize := ⟨"P1", 10, "fid-p1", 10, 10⟩

/-- Higher-resolution photo size variant. -/
def demoPhotoLarge : TPhotoSize := ⟨"P2", 20, "fid-p2", 20, 20⟩

/-- Payload carrying a two-variant photo array in ascending resolution. -/
def demoPhotoMessage : TMessage := { photo := some [demoPhotoSmall, demoPhotoLarge] }

/-- Payload carrying a voice note. -/
def demoVoiceMessage : TMessage := { voice := some ⟨"VOI1", 100, "audio/ogg", "fid-voi"⟩ }

/-- Outbound content item of category sticker, as the inbound classifier
persists for non-animated stickers. -/
def demoStickerOutFile : OutFile :=
  ⟨"sticker", "https://files.example.com/chat_rooms/room-1/STK1.webp"⟩

/-- Outbound content item of category gif. -/
def demoGifOutFile : OutFile :=
  ⟨"gif", "https://files.example.com/chat_rooms/room-1/ANIM1.mp4"⟩

/-- Outbound content item of category document. -/
def demoDocOutFile : OutFile :=
  ⟨"document", "https://files.example.com/chat_rooms/room-1/report.pdf"⟩

/-- Outbound content item of category image. -/
def demoImgOutFile : OutFile :=
  ⟨"image", "https://files.example.com/chat_rooms/room-1/P2.jpeg"⟩

/-- Outbound environment with a known chat room row. -/
def demoOutEnv : OutEnv :=
  { presign := demoPresign, aggregated := some ("123456789", "bot-token") }

/-- Outbound request whose chat room id is not a UUID. -/
def badChatRoomInput : InputBody := { chatRoomId := some "not-a-uuid" }

/-- Store state after a concurrent writer has already committed the
identified-user row (id 1) for username alice and its user row (id 7). -/
def raceDb : PGDatabase :=
  { identified_users := [⟨1, some "Alice", none, none, some "alice"⟩],
    users := [⟨7, some 1, none, none⟩],
    next_identified_user_id := 2, next_user_id := 8 }

/-- A list member is returned by `getLast?` only if it belongs to the list. -/
theorem mem_of_getLast_eq {α : Type _} :
    ∀ (l : List α) (y : α), l.getLast? = some y → y ∈ l := by
  intro l
  induction l with
  | nil => intro y hy; simp at hy
  | cons a t ih =>
      intro y hy
      cases t with
      | nil =>
          have h1 : ([a] : List α).getLast? = some a := rfl
          rw [h1] at hy
          rw [← Option.some.inj hy]
          exact List.mem_singleton_self a
      | cons b t2 =>
          rw [List.getLast?_cons_cons] at hy
          exact List.mem_cons_of_mem a (ih y hy)

/-- In a list whose measure is pairwise non-decreasing, the last element
has maximal measure. -/
theorem pairwise_getLast_max {α : Type _} (f : α → Nat) :
    ∀ (l : List α), l.Pairwise (fun a b => f a ≤ f b) →
      ∀ y, l.getLast? = some y → ∀ x ∈ l, f x ≤ f y := by
  intro l
  induction l with
  | nil => intro _ y hy; simp at hy
  | cons a t ih =>
      intro hp y hy x hx
      rcases List.pairwise_cons.mp hp with ⟨ha, ht⟩
      cases t with
      | nil =>
          have h1 : ([a] : List α).getLast? = some a := rfl
          rw [h1] at hy
          have hya : a = y := Option.some.inj hy
          rcases List.mem_singleton.mp hx with rfl
          rw [← hya]
      | cons b t2 =>
          rw [List.getLast?_cons_cons] at hy
          rcases List.mem_cons.mp hx with rfl | hxt
          · exact ha y (mem_of_getLast_eq _ y hy)
          · exact ih ht y hy x hxt

/-- The single-file dispatcher issues exactly one call for the five handled
categories and none otherwise. -/
theorem singleFileDispatch_length (presign : String → Option String)
    (message_text : Option String) (file : OutFile) :
    (singleFileDispatch presign message_text file).length =
      if file.category ∈ (["gif", "document", "image", "video", "audio"] : List String)
      then 1 else 0 := by
  unfold singleFileDispatch
  split_ifs with h1 h2 h3 h4 h5 <;> simp_all [List.mem_cons]

/-- Upload effects always satisfy the persisted-text predicate. -/
theorem uploadEffects_textsOk (message : TMessage) (room : Option String)
    (content : Option (List ContentItem)) :
    (uploadEffects room content).all (persistedTextMatches message) = true := by
  unfold uploadEffects
  cases content with
  | none => rfl
  | some items =>
      rw [List.all_eq_true]
      intro e he
      rcases List.mem_filterMap.mp he with ⟨item, _, heq⟩
      cases hfn : item.fileName with
      | none => rw [hfn] at heq; simp at heq
      | some fn =>
          rw [hfn] at heq
          rw [Option.map_some'] at heq
          rw [← Option.some.inj heq]
          rfl

/-- C1, counterexample.  The claim predicts that a payload whose only
recognized media field is `animation` classifies to exactly one ContentItem
of category gif; the code reaches the gif branch only when `document` is
also set, so the animation-only payload yields no content at all
(`message_content` is null). -/
theorem c1_media_classification_counterexample :
    form_message_format demoS3 (some "room-1") animationOnlyMessage =
      .ok (none, none) := rfl

/-- C2, counterexample.  The claim predicts that one persisted content item
always produces exactly one category-specific send call; a single item of
category sticker (which the inbound classifier does persist) falls through
every branch of the dispatcher and produces zero channel calls. -/
theorem c2_dispatch_counterexample :
    telegramDispatch demoPresign (some "hello") (some [demoStickerOutFile]) = [] := rfl

/-- C3 (code bug).  For a single gif content item the dispatcher hands the
permanent storage URL itself to sendAnimation, skipping the presigned URL
exchange that every sibling category (document shown here) performs. -/
theorem c3_gif_permanent_url_leak :
    telegramDispatch demoPresign none (some [demoGifOutFile]) =
      [TgCall.sendAnimation demoGifOutFile.url] ∧
    demoPresign demoGifOutFile.url ≠ some demoGifOutFile.url ∧
    telegramDispatch demoPresign none (some [demoDocOutFile]) =
      [TgCall.sendDocument (demoPresign demoDocOutFile.url) none] := by
  refine ⟨rfl, ?_, rfl⟩
  decide

/-- C4 (code bug).  When a concurrent writer has already committed the
username, the winner id (7) is retrievable by the lookup, but
`create_identified_user` raises (the on-conflict insert returns no row and
`fetchone()` yields None) instead of returning that id; on a fresh username
the insert pair succeeds atomically and returns the new user id. -/
theorem c4_identity_race_bug :
    get_identified_user_data raceDb (some "alice") = some "7" ∧
    create_identified_user raceDb (some "Ann") none (some "meta") (some "alice") =
      .error "TypeError: NoneType object is not subscriptable" ∧
    create_identified_user raceDb none none none (some "bob") =
      .ok ("8",
        { identified_users := raceDb.identified_users ++ [⟨2, none, none, none, some "bob"⟩],
          users := raceDb.users ++ [⟨8, some 2, none, none⟩],
          next_identified_user_id := 3, next_user_id := 9 }) := by
  exact ⟨by decide, rfl, rfl⟩

/-- C8 (code bug).  The send_notification_to_telegram handler interpolates
the request-supplied chat room id into the SQL text with str.format, so the
statement text handed to the store differs between requests, contradicting
the parameterized-statement claim. -/
theorem c8_interpolated_notification_statement :
    notification_sql_statement "a" ≠ notification_sql_statement "b" := by
  set_option maxRecDepth 40000 in decide

/-- C9.  A non-animated sticker payload (no text, no poll) takes the
sticker branch of the inbound handler, whose animated guard fails, and the
handler performs no effect at all: no reply, no upload, no chat room, no
persisted message. -/
theorem c9_nonanimated_sticker_dropped (env : InEnv) (message : TMessage)
    (st : TSticker) (htext : message.text = none) (hpoll : message.poll = false)
    (hst : message.sticker = some st) (hanim : st.is_animated = false) :
    inbound_lambda_handler env message = .ok [] := by
  simp [inbound_lambda_handler, htext, hpoll, hst, stickerIsAnimated, hanim]

/-- C9, witness at the concrete sticker payload. -/
theorem c9_nonanimated_sticker_dropped_witness :
    inbound_lambda_handler demoInEnv demoStickerMessage = .ok [] :=
  c9_nonanimated_sticker_dropped demoInEnv demoStickerMessage
    ⟨false, "STK1", 64, "fid-stk", 512, 512⟩ rfl rfl rfl rfl

/-- C1, amended claim.  Classification follows the branch chain of the
code: contact, then location, then document (only with animation absent),
then gif (only when both animation and document are present), then video,
voice (classified as category audio), audio, sticker (null content when
animated), photo (classified as category image); an animation without a
document, like an empty payload, yields null content; documents, videos and
audios additionally need a dot in the supplied file name for the extension
derivation to succeed. -/
theorem c1_media_classification_amended (u : String → String) (room : Option String)
    (message : TMessage) :
    (∀ c, message.contact = some c →
        contentCats (classify_content u room message) = some (some ["contact"])) ∧
    (∀ l, message.contact = none → message.location = some l →
        contentCats (classify_content u room message) = some (some ["location"])) ∧
    (∀ d ext, message.contact = none → message.location = none →
        message.document = some d → message.animation = none →
        rsplitExt d.file_name = .ok ext →
        contentCats (classify_content u room message) = some (some ["document"])) ∧
    (∀ d a, message.contact = none → message.location = none →
        message.document = some d → message.animation = some a →
        contentCats (classify_content u room message) = some (some ["gif"])) ∧
    (∀ v ext, message.contact = none → message.location = none →
        message.document = none → message.video = some v →
        rsplitExt v.file_name = .ok ext →
        contentCats (classify_content u room message) = some (some ["video"])) ∧
    (∀ w, message.contact = none → message.location = none →
        message.document = none → message.video = none → message.voice = some w →
        contentCats (classify_content u room message) = some (some ["audio"])) ∧
    (∀ a ext, message.contact = none → message.location = none →
        message.document = none → message.video = none → message.voice = none →
        message.audio = some a → rsplitExt a.file_name = .ok ext →
        contentCats (classify_content u room message) = some (some ["audio"])) ∧
    (∀ st, message.contact = none → message.location = none →
        message.document = none → message.video = none → message.voice = none →
        message.audio = none → message.sticker = some st →
        contentCats (classify_content u room message) =
          some (if st.is_animated then none else some ["sticker"])) ∧
    (∀ ps p0, message.contact = none → message.location = none →
        message.document = none → message.video = none → message.voice = none →
        message.audio = none → message.sticker = none → message.photo = some ps →
        ps.getLast? = some p0 →
        contentCats (classify_content u room message) = some (some ["image"])) ∧
    (message.contact = none → message.location = none → message.document = none →
        message.video = none → message.voice = none → message.audio = none →
        message.sticker = none → message.photo = none →
        contentCats (classify_content u room message) = some none) := by
  refine ⟨?_, ?_, ?_, ?_, ?_, ?_, ?_, ?_, ?_, ?_⟩
  · intro c hc
    simp [classify_content, contentCats, hc]
  · intro l hc hl
    simp [classify_content, contentCats, hc, hl]
  · intro d ext hc hl hd ha hext
    simp [classify_content, contentCats, hc, hl, hd, ha, hext]
  · intro d a hc hl hd ha
    simp [classify_content, contentCats, hc, hl, hd, ha]
  · intro v ext hc hl hd hv hext
    simp [classify_content, contentCats, hc, hl, hd, hv, hext]
  · intro w hc hl hd hv hw
    simp [classify_content, contentCats, hc, hl, hd, hv, hw]
  · intro a ext hc hl hd hv hw ha hext
    simp [classify_content, contentCats, hc, hl, hd, hv, hw, ha, hext]
  · intro st hc hl hd hv hw ha hst
    cases hb : st.is_animated <;>
      simp [classify_content, contentCats, hc, hl, hd, hv, hw, ha, hst, hb]
  · intro ps p0 hc hl hd hv hw ha hst hps hlast
    simp [classify_content, contentCats, hc, hl, hd, hv, hw, ha, hst, hps, hlast]
  · intro hc hl hd hv hw ha hst hps
    simp [classify_content, contentCats, hc, hl, hd, hv, hw, ha, hst, hps]

/-- C1, witness for the amended claim: a payload with both document and
animation set classifies as one gif item, showing the amended precedence. -/
theorem c1_media_classification_amended_witness :
    contentCats (classify_content demoS3 (some "room-1") demoDocAnimMessage) =
      some (some ["gif"]) :=
  (c1_media_classification_amended demoS3 (some "room-1") demoDocAnimMessage).2.2.2.1
    ⟨"clip.mp4", 9, "video/mp4", "fid-doc"⟩ ⟨"ANIM1", 512, "video/mp4", "fid-anim", 320, 240⟩
    rfl rfl rfl rfl

/-- C6.  File name derivation per kind: explicit channel-supplied name for
documents, videos and audios; fixed-extension names built from the unique
file id for gif (.mp4), voice (.ogg), non-animated stickers (.webp) and
photos (.jpeg); a photo is built from the last size variant, which under
the ascending-resolution ordering of the size array is the
highest-resolution variant offered. -/
theorem c6_filename_derivation (u : String → String) (room : Option String)
    (message : TMessage) :
    (∀ d ext, message.contact = none → message.location = none →
        message.document = some d → message.animation = none →
        rsplitExt d.file_name = .ok ext →
        contentFileNames (classify_content u room message) = some [some d.file_name]) ∧
    (∀ d a, message.contact = none → message.location = none →
        message.document = some d → message.animation = some a →
        contentFileNames (classify_content u room message) =
          some [some (a.file_unique_id ++ ".mp4")]) ∧
    (∀ v ext, message.contact = none → message.location = none →
        message.document = none → message.video = some v →
        rsplitExt v.file_name = .ok ext →
        contentFileNames (classify_content u room message) = some [some v.file_name]) ∧
    (∀ w, message.contact = none → message.location = none →
        message.document = none → message.video = none → message.voice = some w →
        contentFileNames (classify_content u room message) =
          some [some (w.file_unique_id ++ ".ogg")]) ∧
    (∀ a ext, message.contact = none → message.location = none →
        message.document = none → message.video = none → message.voice = none →
        message.audio = some a → rsplitExt a.file_name = .ok ext →
        contentFileNames (classify_content u room message) = some [some a.file_name]) ∧
    (∀ st, message.contact = none → message.location = none →
        message.document = none → message.video = none → message.voice = none →
        message.audio = none → message.sticker = some st → st.is_animated = false →
        contentFileNames (classify_content u room message) =
          some [some (st.file_unique_id ++ ".webp")]) ∧
    (∀ ps p0, message.contact = none → message.location = none →
        message.document = none → message.video = none → message.voice = none →
        message.audio = none → message.sticker = none → message.photo = some ps →
        ps.getLast? = some p0 →
        contentFileNames (classify_content u room message) =
          some [some (p0.file_unique_id ++ ".jpeg")] ∧
        (ps.Pairwise (fun a b => photoRes a ≤ photoRes b) →
          ∀ q ∈ ps, photoRes q ≤ photoRes p0)) := by
  refine ⟨?_, ?_, ?_, ?_, ?_, ?_, ?_⟩
  · intro d ext hc hl hd ha hext
    simp [classify_content, contentFileNames, hc, hl, hd, ha, hext]
  · intro d a hc hl hd ha
    simp [classify_content, contentFileNames, hc, hl, hd, ha]
  · intro v ext hc hl hd hv hext
    simp [classify_content, contentFileNames, hc, hl, hd, hv, hext]
  · intro w hc hl hd hv hw
    simp [classify_content, contentFileNames, hc, hl, hd, hv, hw]
  · intro a ext hc hl hd hv hw ha hext
    simp [classify_content, contentFileNames, hc, hl, hd, hv, hw, ha, hext]
  · intro st hc hl hd hv hw ha hst hanim
    simp [classify_content, contentFileNames, hc, hl, hd, hv, hw, ha, hst, hanim]
  · intro ps p0 hc hl hd hv hw ha hst hps hlast
    constructor
    · simp [classify_content, contentFileNames, hc, hl, hd, hv, hw, ha, hst, hps, hlast]
    · intro hpair
      exact pairwise_getLast_max photoRes ps hpair p0 hlast

/-- C6, witness at the two-variant photo payload: the stored name comes
from the last variant P2 and the skipped variant has no larger
resolution. -/
theorem c6_filename_derivation_witness :
    contentFileNames (classify_content demoS3 (some "room-1") demoPhotoMessage) =
      some [some ("P2" ++ ".jpeg")] ∧
    photoRes demoPhotoSmall ≤ photoRes demoPhotoLarge := by
  have h := (c6_filename_derivation demoS3 (some "room-1") demoPhotoMessage).2.2.2.2.2.2
      [demoPhotoSmall, demoPhotoLarge] demoPhotoLarge rfl rfl rfl rfl rfl rfl rfl rfl rfl
  exact ⟨h.1, h.2 (by decide) demoPhotoSmall (by simp)⟩

/-- C2, amended claim.  Dispatch batching as implemented: absent content
with text present gives one text-send call; content present but empty gives
zero calls; a single content item gives exactly one category-specific call
when its category is gif, document, image, video or audio, and zero calls
otherwise; 2 to 10 items give exactly one grouped sendMediaGroup call; more
than 10 items give zero calls; and no caption is attached without
accompanying text. -/
theorem c2_dispatch_amended (presign : String → Option String)
    (message_text : Option String) (t : String) (files : List OutFile) (file : OutFile) :
    (telegramDispatch presign (some t) none = [TgCall.sendMessage t]) ∧
    (telegramDispatch presign none none = []) ∧
    (telegramDispatch presign message_text (some []) = []) ∧
    ((telegramDispatch presign message_text (some [file])).length =
      if file.category ∈ (["gif", "document", "image", "video", "audio"] : List String)
      then 1 else 0) ∧
    (2 ≤ files.length → files.length ≤ 10 →
      telegramDispatch presign message_text (some files) =
        [TgCall.sendMediaGroup (mediaCollection presign message_text files)]) ∧
    (10 < files.length →
      telegramDispatch presign message_text (some files) = []) ∧
    (message_text = none →
      ∀ call ∈ telegramDispatch presign message_text (some [file]),
        callHasCaption call = false) := by
  refine ⟨rfl, rfl, ?_, ?_, ?_, ?_, ?_⟩
  · cases message_text <;> rfl
  · cases message_text with
    | none =>
        show ([] ++ singleFileDispatch presign none file).length = _
        rw [List.nil_append]
        exact singleFileDispatch_length presign none file
    | some t0 =>
        show ([] ++ singleFileDispatch presign (some t0) file).length = _
        rw [List.nil_append]
        exact singleFileDispatch_length presign (some t0) file
  · intro h2 h10
    rcases files with _ | ⟨a, _ | ⟨b, rest⟩⟩
    · simp at h2
    · simp at h2
    · have hr : rest.length ≤ 8 := by simpa using h10
      have hg : 1 < (a :: b :: rest).length ∧ (a :: b :: rest).length ≤ 10 :=
        ⟨by simp, h10⟩
      cases message_text <;> simp [telegramDispatch, hg, hr]
  · intro h10
    rcases files with _ | ⟨a, _ | ⟨b, rest⟩⟩
    · simp at h10
    · simp at h10
    · have hr : 8 < rest.length := by
        have := h10
        simp at this
        omega
      cases message_text <;> simp [telegramDispatch, hr]
  · intro hmt call hcall
    subst hmt
    revert hcall
    show call ∈ ([] ++ singleFileDispatch presign none file) → _
    rw [List.nil_append]
    unfold singleFileDispatch
    split_ifs <;> intro hcall <;>
      first
        | exact absurd hcall (List.not_mem_nil call)
        | (rw [List.mem_singleton] at hcall; subst hcall; rfl)

/-- C2, witness for the amended claim: two content items produce exactly
one grouped call. -/
theorem c2_dispatch_amended_witness :
    telegramDispatch demoPresign (some "hello") (some [demoDocOutFile, demoImgOutFile]) =
      [TgCall.sendMediaGroup
        (mediaCollection demoPresign (some "hello") [demoDocOutFile, demoImgOutFile])] :=
  (c2_dispatch_amended demoPresign (some "hello") "hello"
    [demoDocOutFile, demoImgOutFile] demoDocOutFile).2.2.2.2.1 (by decide) (by decide)

/-- C5.  Every skip branch of the inbound handler — the /start command, a
poll, a sticker, or a non-text payload on a conversation with no existing
chat room — returns normally with at most one canned channel reply and no
other effect: no chat room creation, no persisted message, no upload. -/
theorem c5_skip_branches_pure (env : InEnv) (message : TMessage)
    (h : message.text = some "/start" ∨ message.poll = true ∨
         (env.aggregated.bind AggRow.chat_room_id = none ∧ anyMediaSet message = true)) :
    skipPure (inbound_lambda_handler env message) = true := by
  by_cases h1 : message.text = some "/start"
  · simp [inbound_lambda_handler, h1, skipPure, isSendMessageText]
  by_cases h2 : message.poll = true
  · simp [inbound_lambda_handler, h1, h2, skipPure, isSendMessageText]
  by_cases h3 : message.sticker.isSome = true
  · by_cases h4 : stickerIsAnimated message = true
    · simp [inbound_lambda_handler, h1, h2, h3, h4, skipPure, isSendMessageText]
    · simp [inbound_lambda_handler, h1, h2, h3, h4, skipPure, isSendMessageText]
  · rcases h with h | h | ⟨hroom, hmedia⟩
    · exact absurd h h1
    · exact absurd h h2
    · simp [inbound_lambda_handler, h1, h2, h3, hroom, hmedia, skipPure, isSendMessageText]

/-- C5, witness at the /start payload on a roomless conversation. -/
theorem c5_skip_branches_pure_witness :
    skipPure (inbound_lambda_handler demoInEnv demoStartMessage) = true :=
  c5_skip_branches_pure demoInEnv demoStartMessage (Or.inl rfl)

/-- C7.  When a required identifier is absent or not a well-formed UUID, or
a present quoted-message id is not a UUID, the outbound handler raises
before reaching the createChatRoomMessage mutation: the error result
carries no effect list, so no store mutation is attempted. -/
theorem c7_validation_precedes_mutation (env : OutEnv) (input : InputBody)
    (h : input.chatRoomId = none ∨
         (∃ s, input.chatRoomId = some s ∧ pythonUuidValid s = false) ∨
         input.messageAuthorId = none ∨
         (∃ s, input.messageAuthorId = some s ∧ pythonUuidValid s = false) ∨
         input.messageChannelId = none ∨
         (∃ s, input.messageChannelId = some s ∧ pythonUuidValid s = false) ∨
         (∃ q i, input.quotedMessage = some (some q) ∧ q.messageId = some i ∧
            pythonUuidValid i = false)) :
    exceptRaises (outbound_lambda_handler env input) = true := by
  have hchk : exceptRaises (check_input_arguments input) = true := by
    rcases h with h1 | ⟨s, hs, hbad⟩ | h3 | ⟨s, hs, hbad⟩ | h5 | ⟨s, hs, hbad⟩ |
      ⟨q, i, hq, hqi, hbad⟩
    · simp [check_input_arguments, validateRequired, h1, exceptRaises]
    · simp [check_input_arguments, validateRequired, hs, hbad, exceptRaises]
    · cases hcr : validateRequired input.chatRoomId
          "The chatRoomId argument cannot be None/Null/Undefined."
          "The chatRoomId argument format is not UUID." with
      | error e => simp [check_input_arguments, hcr, exceptRaises]
      | ok cr =>
          simp only [check_input_arguments]
          rw [hcr]
          simp [validateRequired, h3, exceptRaises]
    · cases hcr : validateRequired input.chatRoomId
          "The chatRoomId argument cannot be None/Null/Undefined."
          "The chatRoomId argument format is not UUID." with
      | error e => simp [check_input_arguments, hcr, exceptRaises]
      | ok cr =>
          simp only [check_input_arguments]
          rw [hcr]
          simp [validateRequired, hs, hbad, exceptRaises]
    · cases hcr : validateRequired input.chatRoomId
          "The chatRoomId argument cannot be None/Null/Undefined."
          "The chatRoomId argument format is not UUID." with
      | error e => simp [check_input_arguments, hcr, exceptRaises]
      | ok cr =>
          cases hau : validateRequired input.messageAuthorId
              "The messageAuthorId argument cannot be None/Null/Undefined."
              "The messageAuthorId argument format is not UUID." with
          | error e =>
              simp only [check_input_arguments]
              rw [hcr, hau]
              simp [exceptRaises]
          | ok au =>
              simp only [check_input_arguments]
              rw [hcr, hau]
              simp [validateRequired, h5, exceptRaises]
    · cases hcr : validateRequired input.chatRoomId
          "The chatRoomId argument cannot be None/Null/Undefined."
          "The chatRoomId argument format is not UUID." with
      | error e => simp [check_input_arguments, hcr, exceptRaises]
      | ok cr =>
          cases hau : validateRequired input.messageAuthorId
              "The messageAuthorId argument cannot be None/Null/Undefined."
              "The messageAuthorId argument format is not UUID." with
          | error e =>
              simp only [check_input_arguments]
              rw [hcr, hau]
              simp [exceptRaises]
          | ok au =>
              simp only [check_input_arguments]
              rw [hcr, hau]
              simp [validateRequired, hs, hbad, exceptRaises]
    · cases hcr : validateRequired input.chatRoomId
          "The chatRoomId argument cannot be None/Null/Undefined."
          "The chatRoomId argument format is not UUID." with
      | error e => simp [check_input_arguments, hcr, exceptRaises]
      | ok cr =>
          cases hau : validateRequired input.messageAuthorId
              "The messageAuthorId argument cannot be None/Null/Undefined."
              "The messageAuthorId argument format is not UUID." with
          | error e =>
              simp only [check_input_arguments]
              rw [hcr, hau]
              simp [exceptRaises]
          | ok au =>
              cases hch : validateRequired input.messageChannelId
                  "The messageChannelId argument cannot be None/Null/Undefined."
                  "The messageChannelId argument format is not UUID." with
              | error e =>
                  simp only [check_input_arguments]
                  rw [hcr, hau, hch]
                  simp [exceptRaises]
              | ok ch =>
                  simp only [check_input_arguments]
                  rw [hcr, hau, hch]
                  simp [hq, Option.join, validateOptionalUuid, hqi, hbad, exceptRaises]
  cases hres : check_input_arguments input with
  | error e => simp [outbound_lambda_handler, hres, exceptRaises]
  | ok ia =>
      rw [hres] at hchk
      simp [exceptRaises] at hchk

/-- C7, witness: a non-UUID chatRoomId makes the outbound handler raise. -/
theorem c7_validation_precedes_mutation_witness :
    exceptRaises (outbound_lambda_handler demoOutEnv badChatRoomInput) = true :=
  c7_validation_precedes_mutation demoOutEnv badChatRoomInput
    (Or.inr (Or.inl ⟨"not-a-uuid", rfl, by decide⟩))

/-- C10.  The persisted message text is the payload text when present,
otherwise the caption, otherwise null: every createChatRoomMessage effect
the inbound handler emits carries `messageTextOf`, and the first component
of `form_message_format` is always `messageTextOf`. -/
theorem c10_caption_fallback (env : InEnv) (message : TMessage)
    (u : String → String) (room : Option String) :
    resultTextsOk (inbound_lambda_handler env message) message = true ∧
    (∀ p, form_message_format u room message = .ok p → p.1 = messageTextOf message) := by
  constructor
  · by_cases h1 : message.text = some "/start"
    · simp [inbound_lambda_handler, h1, resultTextsOk, persistedTextMatches]
    by_cases h2 : message.poll = true
    · simp [inbound_lambda_handler, h1, h2, resultTextsOk, persistedTextMatches]
    by_cases h3 : message.sticker.isSome = true
    · by_cases h4 : stickerIsAnimated message = true <;>
        simp [inbound_lambda_handler, h1, h2, h3, h4, resultTextsOk, persistedTextMatches]
    by_cases h5 : ((env.aggregated.bind AggRow.chat_room_id).isNone &&
        anyMediaSet message) = true
    · simp [inbound_lambda_handler, h1, h2, h3, h5, resultTextsOk, persistedTextMatches]
    · cases hc : classify_content env.s3Url (env.aggregated.bind AggRow.chat_room_id)
          message with
      | error e =>
          simp [inbound_lambda_handler, h1, h2, h3, h5, form_message_format, hc,
                Except.map, resultTextsOk]
      | ok c =>
          simp only [inbound_lambda_handler, h1, h2, h3, h5, form_message_format, hc,
                     Except.map, if_false, Bool.false_eq_true, if_neg]
          cases hlk : env.identified_user_lookup <;>
            split <;>
              simp [resultTextsOk, List.all_append, uploadEffects_textsOk,
                    persistedTextMatches]
  · intro p hp
    unfold form_message_format at hp
    cases hcl : classify_content u room message with
    | error e =>
        rw [hcl] at hp
        simp [Except.map] at hp
    | ok c =>
        rw [hcl] at hp
        simp only [Except.map, Except.ok.injEq] at hp
        rw [← hp]

/-- C10, witness: the caption-and-contact payload is persisted with the
caption as its text. -/
theorem c10_caption_fallback_witness :
    resultTextsOk (inbound_lambda_handler demoRoomEnv demoCaptionMessage)
      demoCaptionMessage = true ∧
    (some "cap", demoCaptionContent).1 = messageTextOf demoCaptionMessage := by
  have h := c10_caption_fallback demoRoomEnv demoCaptionMessage demoS3 (some "room-1")
  exact ⟨h.1, h.2 (some "cap", demoCaptionContent) rfl⟩

end TelegramBot
